import Mathlib

/-!
Shallow embedding of `fw/src/mgos_sntp.c` (mongoose-os SNTP module).

The module's mutable global `struct mgos_sntp_state s_state` becomes the
record `SntpState`; each C function becomes a pure Lean function from the
pre-state to the post-state.  External collaborators are oracles passed as
arguments:
  * `mg_sntp_connect` success/failure is the Boolean `connectOk`;
  * `settimeofday` success/failure is the Boolean `sr`;
  * `mgos_rand_range(a, b)` is the rational `r` (theorems hypothesise the
    documented contract `a ≤ r ≤ b` where needed);
  * `mg_time()` is the rational `now`, the server time `m->time` is `m`.
C `double` is modelled as `ℚ`, C `int` as `ℤ` (all values involved stay far
below 2^31, so no wrap-around is modelled).  Connections are identified by
`ℕ` ids; `MG_F_CLOSE_IMMEDIATELY` flags appear as the `closeReq` list, and
the set of connections that exist but have not yet been destroyed is the
`live` list.  Registered time-change callbacks are identified by `ℕ` ids
kept in `observers` in SLIST order (head = most recently inserted).
-/

namespace MgosSntp

/-- Truncation toward zero, the semantics of the C cast
`(int) mgos_rand_range(rt_ms * 0.9, rt_ms * 1.1)` in `mgos_sntp_retry`. -/
def cTrunc (r : ℚ) : ℤ := if r < 0 then ⌈r⌉ else ⌊r⌋

/-- Result codes of `mgos_sntp_init` (subset of `enum mgos_init_result`). -/
inductive MgosInitResult where
  | MGOS_INIT_OK
  | MGOS_INIT_SNTP_INIT_FAILED
deriving DecidableEq

/-- Network events delivered to `mgos_sntp_net_ev` (`enum mgos_net_event`). -/
inductive MgosNetEvent where
  | MGOS_NET_EV_DISCONNECTED
  | MGOS_NET_EV_CONNECTING
  | MGOS_NET_EV_CONNECTED
  | MGOS_NET_EV_IP_ACQUIRED
deriving DecidableEq

/-- The `sntp` section of the system configuration (`struct sys_config_sntp`).
`server == NULL` in C is `none`; an empty string is `some ""`. -/
structure SysConfigSntp where
  enable : Bool
  server : Option String
  update_interval : ℤ
  retry_min : ℤ
  retry_max : ℤ

/-- `struct mgos_sntp_state`, together with the bookkeeping needed to talk
about sessions: `live` is the list of connection ids that have been created
and not yet closed, `closeReq` the ids on which `MG_F_CLOSE_IMMEDIATELY`
has been set, and `nextId` a fresh-id counter for `mg_sntp_connect`.
`retry_timer = some d` means a one-shot timer with delay `d` ms is armed
(`retry_timer_id != MGOS_INVALID_TIMER_ID`); `none` means no timer. -/
structure SntpState where
  nc : Option ℕ
  synced : Bool
  retry_timeout_ms : ℤ
  retry_timer : Option ℤ
  observers : List ℕ
  closeReq : List ℕ
  live : List ℕ
  nextId : ℕ
deriving DecidableEq

/-- The zero-initialised static `s_state` at program start. -/
def initState : SntpState :=
  { nc := none, synced := false, retry_timeout_ms := 0, retry_timer := none,
    observers := [], closeReq := [], live := [], nextId := 0 }

/-- The backoff computation of the `!s_state.synced` branch of
`mgos_sntp_retry` (lines 117-123): double, raise to `retry_min * 1000`,
clamp to `retry_max * 1000`. -/
def backoff_next (scfg : SysConfigSntp) (x : ℤ) : ℤ :=
  let a := x * 2
  let b := if a < scfg.retry_min * 1000 then scfg.retry_min * 1000 else a
  if b > scfg.retry_max * 1000 then scfg.retry_max * 1000 else b

/-- `mgos_sntp_retry` (lines 109-130).  `r` is the value returned by
`mgos_rand_range(rt_ms * 0.9, rt_ms * 1.1)`; the armed delay is its C cast
to `int`. -/
def mgos_sntp_retry (scfg : SysConfigSntp) (st : SntpState) (r : ℚ) : SntpState :=
  if scfg.enable = false then st
  else if st.retry_timer.isSome then st
  else
    let st1 : SntpState :=
      if st.synced then st
      else { st with retry_timeout_ms := backoff_next scfg st.retry_timeout_ms }
    { st1 with retry_timer := some (cTrunc r) }

/-- `mgos_sntp_query` (lines 87-95).  If a connection is already tracked it
only sets `MG_F_CLOSE_IMMEDIATELY` on it and returns `false`; otherwise it
calls `mg_sntp_connect`, whose outcome is the oracle `connectOk`, and
returns whether the new handle is non-NULL. -/
def mgos_sntp_query (st : SntpState) (connectOk : Bool) : Bool × SntpState :=
  match st.nc with
  | some sid => (false, { st with closeReq := sid :: st.closeReq })
  | none =>
      if connectOk then
        (true, { st with nc := some st.nextId, live := st.nextId :: st.live,
                         nextId := st.nextId + 1 })
      else (false, st)

/-- `mgos_sntp_retry_timer_cb` (lines 97-107): invalidate the timer id,
query, then immediately re-arm as a safety net. -/
def mgos_sntp_retry_timer_cb (scfg : SysConfigSntp) (st : SntpState)
    (connectOk : Bool) (r : ℚ) : SntpState :=
  let st1 : SntpState := { st with retry_timer := none }
  let st2 := (mgos_sntp_query st1 connectOk).2
  mgos_sntp_retry scfg st2 r

/-- Post-state of the `MG_SNTP_REPLY` case of `mgos_sntp_ev`, together with
the list of `(callback id, delta)` invocations performed by the
`SLIST_FOREACH` loop, in call order. -/
structure ReplyOutcome where
  st : SntpState
  notified : List (ℕ × ℚ)
deriving DecidableEq

/-- The `MG_SNTP_REPLY` case of `mgos_sntp_ev` (lines 42-68), for the reply
arriving on connection `sid` carrying server time `m`, with `mg_time()`
returning `now` and `settimeofday` succeeding iff `sr`. -/
def mgos_sntp_ev_reply (st : SntpState) (sid : ℕ) (m now : ℚ) (sr : Bool) :
    ReplyOutcome :=
  let delta := m - now
  let notified := if sr then st.observers.map (fun cb => (cb, delta)) else []
  let st1 : SntpState :=
    { st with retry_timeout_ms := 0, synced := true,
              closeReq := sid :: st.closeReq }
  let st2 : SntpState :=
    if st1.retry_timer.isSome then { st1 with retry_timer := none } else st1
  { st := st2, notified := notified }

/-- The `MG_SNTP_MALFORMED_REPLY` / `MG_SNTP_FAILED` cases of `mgos_sntp_ev`
(lines 70-74): only set `MG_F_CLOSE_IMMEDIATELY` on the connection. -/
def mgos_sntp_ev_fail (st : SntpState) (sid : ℕ) : SntpState :=
  { st with closeReq := sid :: st.closeReq }

/-- The `MG_EV_CLOSE` case of `mgos_sntp_ev` (lines 75-81), delivered when
connection `sid` is destroyed (hence removed from `live`): if it is the
tracked connection, clear the handle and call `mgos_sntp_retry`. -/
def mgos_sntp_ev_close (scfg : SysConfigSntp) (st : SntpState) (sid : ℕ)
    (r : ℚ) : SntpState :=
  let st1 : SntpState := { st with live := st.live.erase sid }
  if st1.nc = some sid then
    mgos_sntp_retry scfg { st1 with nc := none } r
  else st1

/-- `mgos_sntp_add_time_change_cb` (lines 132-138): `SLIST_INSERT_HEAD`. -/
def mgos_sntp_add_time_change_cb (st : SntpState) (cb : ℕ) : SntpState :=
  { st with observers := cb :: st.observers }

/-- `mgos_sntp_net_ev` (lines 150-157). -/
def mgos_sntp_net_ev (scfg : SysConfigSntp) (st : SntpState)
    (ev : MgosNetEvent) (r : ℚ) : SntpState :=
  if ev ≠ MgosNetEvent.MGOS_NET_EV_IP_ACQUIRED then st
  else mgos_sntp_retry scfg st r

/-- Callback id under which `mgos_sntp_init` registers the module's own
`mgos_time_change_cb`. -/
def builtinTimeChangeCb : ℕ := 0

/-- `mgos_sntp_init` (lines 159-169).  Note the C code tests
`scfg->server == NULL` only. -/
def mgos_sntp_init (scfg : SysConfigSntp) (st : SntpState) :
    MgosInitResult × SntpState :=
  if scfg.enable = false then (MgosInitResult.MGOS_INIT_OK, st)
  else
    match scfg.server with
    | none => (MgosInitResult.MGOS_INIT_SNTP_INIT_FAILED, st)
    | some _ =>
        (MgosInitResult.MGOS_INIT_OK,
         mgos_sntp_add_time_change_cb st builtinTimeChangeCb)

/-- A mongoose connection as far as `mgos_time_change_cb` is concerned:
its pending event-timer deadline plus representative other fields. -/
structure MgConnection where
  ev_timer_time : ℚ
  flags : ℤ
  sock : ℕ
deriving DecidableEq

/-- `mgos_time_change_cb` (lines 140-148): walk the manager's connection
list and shift strictly positive `ev_timer_time` deadlines by `delta`. -/
def mgos_time_change_cb (conns : List MgConnection) (delta : ℚ) :
    List MgConnection :=
  conns.map (fun nc =>
    if nc.ev_timer_time > 0 then { nc with ev_timer_time := nc.ev_timer_time + delta }
    else nc)

/-- One step of the event loop: every entry point of the module, fired with
arbitrary oracle values.  Reply/fail/close events can only be delivered for
a connection that exists (`sid ∈ st.live`); the retry timer callback can
only run while a timer is armed. -/
inductive Step (scfg : SysConfigSntp) : SntpState → SntpState → Prop where
  | net_ev : ∀ st ev r, Step scfg st (mgos_sntp_net_ev scfg st ev r)
  | timer_fire : ∀ st connectOk r, st.retry_timer.isSome →
      Step scfg st (mgos_sntp_retry_timer_cb scfg st connectOk r)
  | reply : ∀ st sid m now sr, sid ∈ st.live →
      Step scfg st (mgos_sntp_ev_reply st sid m now sr).st
  | ev_fail : ∀ st sid, sid ∈ st.live → Step scfg st (mgos_sntp_ev_fail st sid)
  | ev_close : ∀ st sid r, sid ∈ st.live →
      Step scfg st (mgos_sntp_ev_close scfg st sid r)
  | register : ∀ st cb, Step scfg st (mgos_sntp_add_time_change_cb st cb)
  | init_call : ∀ st, Step scfg st (mgos_sntp_init scfg st).2

/-- States reachable from the zero-initialised `s_state`. -/
inductive Reachable (scfg : SysConfigSntp) : SntpState → Prop where
  | base : Reachable scfg initState
  | step : ∀ {st st'}, Reachable scfg st → Step scfg st st' →
      Reachable scfg st'

theorem retry_frame (scfg : SysConfigSntp) (st : SntpState) (r : ℚ) :
    (mgos_sntp_retry scfg st r).nc = st.nc ∧
    (mgos_sntp_retry scfg st r).live = st.live ∧
    (mgos_sntp_retry scfg st r).observers = st.observers ∧
    (mgos_sntp_retry scfg st r).synced = st.synced ∧
    (mgos_sntp_retry scfg st r).closeReq = st.closeReq ∧
    (mgos_sntp_retry scfg st r).nextId = st.nextId := by
  unfold mgos_sntp_retry
  split
  · exact ⟨rfl, rfl, rfl, rfl, rfl, rfl⟩
  · split
    · exact ⟨rfl, rfl, rfl, rfl, rfl, rfl⟩
    · split <;> exact ⟨rfl, rfl, rfl, rfl, rfl, rfl⟩

theorem retry_noop_of_armed (scfg : SysConfigSntp) (st : SntpState) (r : ℚ)
    (h : st.retry_timer.isSome) : mgos_sntp_retry scfg st r = st := by
  unfold mgos_sntp_retry
  simp [h]

theorem retry_noop_of_disabled (scfg : SysConfigSntp) (st : SntpState) (r : ℚ)
    (h : scfg.enable = false) : mgos_sntp_retry scfg st r = st := by
  unfold mgos_sntp_retry
  simp [h]

theorem retry_timeout_of_unsynced (scfg : SysConfigSntp) (st : SntpState)
    (r : ℚ) (he : scfg.enable = true) (ht : st.retry_timer = none)
    (hs : st.synced = false) :
    (mgos_sntp_retry scfg st r).retry_timeout_ms =
      backoff_next scfg st.retry_timeout_ms ∧
    (mgos_sntp_retry scfg st r).retry_timer = some (cTrunc r) := by
  unfold mgos_sntp_retry
  rw [if_neg (by simp [he]), ht]
  simp [hs]

theorem retry_of_synced (scfg : SysConfigSntp) (st : SntpState) (r : ℚ)
    (he : scfg.enable = true) (ht : st.retry_timer = none)
    (hs : st.synced = true) :
    mgos_sntp_retry scfg st r = { st with retry_timer := some (cTrunc r) } := by
  unfold mgos_sntp_retry
  rw [if_neg (by simp [he]), ht]
  simp [hs]

theorem backoff_next_min_le (scfg : SysConfigSntp) (x : ℤ)
    (hle : scfg.retry_min * 1000 ≤ scfg.retry_max * 1000) :
    scfg.retry_min * 1000 ≤ backoff_next scfg x := by
  unfold backoff_next
  dsimp only
  split_ifs <;> omega

theorem backoff_next_le_max (scfg : SysConfigSntp) (x : ℤ)
    (hle : scfg.retry_min * 1000 ≤ scfg.retry_max * 1000) :
    backoff_next scfg x ≤ scfg.retry_max * 1000 := by
  unfold backoff_next
  dsimp only
  split_ifs <;> omega

theorem le_backoff_next (scfg : SysConfigSntp) (x : ℤ) (hx0 : 0 ≤ x)
    (hxm : x ≤ scfg.retry_max * 1000) : x ≤ backoff_next scfg x := by
  unfold backoff_next
  dsimp only
  split_ifs <;> omega

theorem backoff_iterate_bounds (scfg : SysConfigSntp)
    (hmn : 0 ≤ scfg.retry_min * 1000)
    (hle : scfg.retry_min * 1000 ≤ scfg.retry_max * 1000) (n : ℕ) :
    0 ≤ (backoff_next scfg)^[n] 0 ∧
    (backoff_next scfg)^[n] 0 ≤ scfg.retry_max * 1000 := by
  induction n with
  | zero => exact ⟨le_refl 0, le_trans hmn hle⟩
  | succ k ih =>
      rw [Function.iterate_succ_apply']
      refine ⟨le_trans hmn (backoff_next_min_le scfg _ hle),
              backoff_next_le_max scfg _ hle⟩

theorem cTrunc_jitter_bounds (rt : ℤ) (r : ℚ) (hdvd : (10 : ℤ) ∣ rt)
    (h0 : 0 ≤ rt) (hlo : ((9 * rt : ℤ) : ℚ) / 10 ≤ r)
    (hhi : r ≤ ((11 * rt : ℤ) : ℚ) / 10) :
    9 * rt ≤ 10 * cTrunc r ∧ 10 * cTrunc r ≤ 11 * rt := by
  obtain ⟨c, hc⟩ := hdvd
  have hc0 : 0 ≤ c := by omega
  have hlo9 : ((9 * c : ℤ) : ℚ) ≤ r := by
    refine le_trans (le_of_eq ?_) hlo
    subst hc
    push_cast
    ring
  have hr0 : ¬ r < 0 := by
    have : (0 : ℚ) ≤ ((9 * c : ℤ) : ℚ) := by
      exact_mod_cast mul_nonneg (by norm_num) hc0
    linarith
  have hfl : cTrunc r = ⌊r⌋ := by unfold cTrunc; rw [if_neg hr0]
  constructor
  · have h1 : (9 * c : ℤ) ≤ ⌊r⌋ := Int.le_floor.mpr hlo9
    rw [hfl]
    omega
  · have h2 : ((⌊r⌋ : ℤ) : ℚ) ≤ r := Int.floor_le r
    have h3 : ((10 * ⌊r⌋ : ℤ) : ℚ) ≤ ((11 * rt : ℤ) : ℚ) := by
      have h4 : ((⌊r⌋ : ℤ) : ℚ) ≤ ((11 * rt : ℤ) : ℚ) / 10 := le_trans h2 hhi
      push_cast at h4 ⊢
      linarith
    rw [hfl]
    exact_mod_cast h3

theorem observers_foldl (regs : List ℕ) (base : SntpState) :
    (regs.foldl mgos_sntp_add_time_change_cb base).observers =
      regs.reverse ++ base.observers := by
  induction regs generalizing base with
  | nil => simp
  | cons a l ih =>
      rw [List.foldl_cons, ih]
      simp [mgos_sntp_add_time_change_cb]

/-- The session bookkeeping invariant: the live connections are exactly the
tracked handle. -/
def SessionInv (st : SntpState) : Prop := st.live = st.nc.toList

theorem reply_frame (st : SntpState) (sid : ℕ) (m now : ℚ) (sr : Bool) :
    (mgos_sntp_ev_reply st sid m now sr).st.nc = st.nc ∧
    (mgos_sntp_ev_reply st sid m now sr).st.live = st.live ∧
    (mgos_sntp_ev_reply st sid m now sr).st.observers = st.observers := by
  unfold mgos_sntp_ev_reply
  dsimp only
  split <;> exact ⟨rfl, rfl, rfl⟩

theorem sessionInv_retry (scfg : SysConfigSntp) (st : SntpState) (r : ℚ)
    (h : SessionInv st) : SessionInv (mgos_sntp_retry scfg st r) := by
  have hf := retry_frame scfg st r
  unfold SessionInv at h ⊢
  rw [hf.2.1, hf.1]
  exact h

theorem sessionInv_query (st : SntpState) (connectOk : Bool)
    (h : SessionInv st) : SessionInv (mgos_sntp_query st connectOk).2 := by
  unfold SessionInv at h ⊢
  unfold mgos_sntp_query
  cases hnc : st.nc with
  | some sid =>
      rw [hnc] at h
      simpa using h
  | none =>
      have hlive : st.live = [] := by
        rw [hnc] at h
        simpa using h
      cases connectOk <;> simp [hnc, hlive]

theorem sessionInv_reachable (scfg : SysConfigSntp) (st : SntpState)
    (h : Reachable scfg st) : SessionInv st := by
  induction h with
  | base => rfl
  | step hr hs ih =>
      rename_i st0 st1
      cases hs with
      | net_ev ev r =>
          unfold mgos_sntp_net_ev
          split
          · exact ih
          · exact sessionInv_retry scfg st0 r ih
      | timer_fire connectOk r harm =>
          unfold mgos_sntp_retry_timer_cb
          dsimp only
          refine sessionInv_retry scfg _ r (sessionInv_query _ connectOk ?_)
          exact ih
      | reply sid m now sr hmem =>
          have hf := reply_frame st0 sid m now sr
          unfold SessionInv at ih ⊢
          rw [hf.2.1, hf.1]
          exact ih
      | ev_fail sid hmem => exact ih
      | ev_close sid r hmem =>
          unfold SessionInv at ih
          cases hnc : st0.nc with
          | none =>
              rw [hnc] at ih
              simp at ih
              rw [ih] at hmem
              simp at hmem
          | some a =>
              rw [hnc] at ih
              simp at ih
              rw [ih] at hmem
              simp at hmem
              subst hmem
              unfold mgos_sntp_ev_close
              dsimp only
              rw [if_pos (by simpa using hnc)]
              refine sessionInv_retry scfg _ r ?_
              unfold SessionInv
              simp [ih]
      | register cb => exact ih
      | init_call =>
          unfold mgos_sntp_init
          split
          · exact ih
          · unfold SessionInv at ih ⊢
            cases hsv : scfg.server <;>
              simp [hsv, mgos_sntp_add_time_change_cb, ih]

theorem disabled_inert_reachable (scfg : SysConfigSntp)
    (hdis : scfg.enable = false) (st : SntpState) (h : Reachable scfg st) :
    st.retry_timer = none ∧ st.nc = none ∧ st.live = [] := by
  induction h with
  | base => exact ⟨rfl, rfl, rfl⟩
  | step hr hs ih =>
      rename_i st0 st1
      cases hs with
      | net_ev ev r =>
          unfold mgos_sntp_net_ev
          split
          · exact ih
          · rw [retry_noop_of_disabled scfg st0 r hdis]
            exact ih
      | timer_fire connectOk r harm =>
          rw [ih.1] at harm
          simp at harm
      | reply sid m now sr hmem =>
          rw [ih.2.2] at hmem
          simp at hmem
      | ev_fail sid hmem =>
          rw [ih.2.2] at hmem
          simp at hmem
      | ev_close sid r hmem =>
          rw [ih.2.2] at hmem
          simp at hmem
      | register cb => exact ih
      | init_call =>
          simpa [mgos_sntp_init, hdis] using ih

/-- The concrete pre-state of the C1 counterexample: not yet synced,
accumulated backoff 5000 ms, retry timer armed. -/
def c1Pre : SntpState :=
  { initState with retry_timeout_ms := 5000, retry_timer := some 123 }

/-- C1: the claim that a failed `settimeofday` leaves `synced`,
`retry_timeout_ms` and the armed retry timer unchanged is false: lines
61-67 run unconditionally after the `if`/`else`, so even on clock-set
failure `synced` becomes `true`, the backoff is reset to 0 and the pending
timer is cancelled.  Concrete input: pre-state `c1Pre`, a valid reply with
server time 100 at local time 90, `settimeofday` failing. -/
theorem C1_settimeofday_failure_counterexample :
    ¬ ((mgos_sntp_ev_reply c1Pre 0 100 90 false).st.synced = c1Pre.synced ∧
       (mgos_sntp_ev_reply c1Pre 0 100 90 false).st.retry_timeout_ms =
         c1Pre.retry_timeout_ms ∧
       (mgos_sntp_ev_reply c1Pre 0 100 90 false).st.retry_timer =
         c1Pre.retry_timer) := by
  intro hcl
  have h1 : (mgos_sntp_ev_reply c1Pre 0 100 90 false).st.synced = true := rfl
  have h2 : c1Pre.synced = false := rfl
  rw [h1, h2] at hcl
  exact Bool.noConfusion hcl.1

/-- C1 (amended): on a valid reply whose `settimeofday` fails, no observer
is invoked, but the handler still sets `synced := true`, resets
`retry_timeout_ms` to 0, cancels any pending retry timer and flags the
session for immediate close — the same post-state as on success except for
the notifications. -/
theorem C1_clock_set_failure_amended (st : SntpState) (sid : ℕ) (m now : ℚ) :
    (mgos_sntp_ev_reply st sid m now false).notified = [] ∧
    (mgos_sntp_ev_reply st sid m now false).st.synced = true ∧
    (mgos_sntp_ev_reply st sid m now false).st.retry_timeout_ms = 0 ∧
    (mgos_sntp_ev_reply st sid m now false).st.retry_timer = none ∧
    (mgos_sntp_ev_reply st sid m now false).st.closeReq = sid :: st.closeReq := by
  unfold mgos_sntp_ev_reply
  dsimp only
  refine ⟨rfl, ?_, ?_, ?_, ?_⟩
  · split <;> rfl
  · split <;> rfl
  · split
    · rfl
    · rename_i hns
      simp only [Option.isSome_iff_exists] at hns
      push_neg at hns
      cases hx : st.retry_timer with
      | none => rfl
      | some t => exact absurd hx (hns t)
  · split <;> rfl

/-- C2: the claim that observers run in registration order (first
registered first) is false: `mgos_sntp_add_time_change_cb` uses
`SLIST_INSERT_HEAD` and the reply handler walks the list from the head, so
the most recently registered callback runs first.  Registering callback 1
then callback 2 and delivering a reply with server time 5 at local time 3
yields the calls `[(2, 2), (1, 2)]`, not `[(1, 2), (2, 2)]`. -/
theorem C2_registration_order_counterexample :
    (mgos_sntp_ev_reply
        (mgos_sntp_add_time_change_cb
          (mgos_sntp_add_time_change_cb initState 1) 2)
        0 5 3 true).notified = [(2, 2), (1, 2)] ∧
    (mgos_sntp_ev_reply
        (mgos_sntp_add_time_change_cb
          (mgos_sntp_add_time_change_cb initState 1) 2)
        0 5 3 true).notified ≠ [(1, 2), (2, 2)] := by
  constructor
  · show [((2 : ℕ), (5 : ℚ) - 3), (1, (5 : ℚ) - 3)] = [(2, 2), (1, 2)]
    norm_num
  · show [((2 : ℕ), (5 : ℚ) - 3), (1, (5 : ℚ) - 3)] ≠ [(1, 2), (2, 2)]
    norm_num

/-- C2 (amended): on a successful reply that is applied successfully, every
registered observer is invoked exactly once with
`delta = serverTime - localTimeAtReceipt`, synchronously, in *reverse*
registration order: the most recently registered callback is called first.
Stated for an arbitrary sequence `regs` of registrations performed since
start-up. -/
theorem C2_notify_reverse_order_amended (regs : List ℕ) (sid : ℕ) (m now : ℚ) :
    (mgos_sntp_ev_reply (regs.foldl mgos_sntp_add_time_change_cb initState)
        sid m now true).notified =
      regs.reverse.map (fun cb => (cb, m - now)) ∧
    ∀ cb : ℕ,
      ((mgos_sntp_ev_reply (regs.foldl mgos_sntp_add_time_change_cb initState)
          sid m now true).notified.map Prod.fst).count cb = regs.count cb := by
  have hobs := observers_foldl regs initState
  have h1 : (mgos_sntp_ev_reply (regs.foldl mgos_sntp_add_time_change_cb initState)
      sid m now true).notified = regs.reverse.map (fun cb => (cb, m - now)) := by
    unfold mgos_sntp_ev_reply
    dsimp only
    rw [hobs]
    simp [initState]
  refine ⟨h1, ?_⟩
  intro cb
  rw [h1, List.map_map]
  have h2 : (Prod.fst ∘ fun cb : ℕ => (cb, m - now)) = id := rfl
  rw [h2, List.map_id, List.count_reverse]

/-- A configuration with `retry_min = 300 s` and `retry_max = 10 s`
(minimum above maximum), used to separate the code's clamp order from the
claimed formula. -/
def cfgMinAboveMax : SysConfigSntp :=
  { enable := true, server := some "pool.ntp.org", update_interval := 7200,
    retry_min := 300, retry_max := 10 }

/-- The spec scenario configuration: `retry_min = 10 s`,
`retry_max = 300 s`. -/
def cfgTen : SysConfigSntp :=
  { enable := true, server := some "pool.ntp.org", update_interval := 7200,
    retry_min := 10, retry_max := 300 }

/-- C3: the claimed closed form
`max(retryMin*1000, min(retryMax*1000, old*2))` does not hold for every
configuration of retry bounds: the code raises to the minimum *before*
clamping to the maximum, so with `retry_min = 300`, `retry_max = 10` and
`old = 0` a failure-path `mgos_sntp_retry` stores 10000 while the claimed
formula yields 300000. -/
theorem C3_backoff_formula_counterexample :
    (mgos_sntp_retry cfgMinAboveMax initState 9500).retry_timeout_ms =
      10000 ∧
    max (cfgMinAboveMax.retry_min * 1000)
        (min (cfgMinAboveMax.retry_max * 1000)
          (initState.retry_timeout_ms * 2)) = 300000 ∧
    (10000 : ℤ) ≠ 300000 := by
  refine ⟨rfl, by decide, by decide⟩

/-- C3 (amended): the pre-jitter delay stored by the failure branch of
`mgos_sntp_retry` is `min(retryMax*1000, max(retryMin*1000, old*2))`,
which coincides with the claimed
`max(retryMin*1000, min(retryMax*1000, old*2))` whenever
`retryMin*1000 ≤ retryMax*1000`; with `retry_min = 10`, `retry_max = 300`
the consecutive stored values are 10000, 20000, 40000, ... clamped at
300000; and whenever the stored value is a non-negative multiple of 10 and
`mgos_rand_range` honours its `[0.9·rt, 1.1·rt]` contract, the armed delay
(the truncated draw) lies in `[0.9, 1.1]` times the stored value. -/
theorem C3_backoff_amended :
    (∀ scfg st r, scfg.enable = true → st.retry_timer = none →
        st.synced = false →
        (mgos_sntp_retry scfg st r).retry_timeout_ms =
          min (scfg.retry_max * 1000)
            (max (scfg.retry_min * 1000) (st.retry_timeout_ms * 2))) ∧
    (∀ scfg x, scfg.retry_min * 1000 ≤ scfg.retry_max * 1000 →
        backoff_next scfg x =
          max (scfg.retry_min * 1000)
            (min (scfg.retry_max * 1000) (x * 2))) ∧
    (backoff_next cfgTen 0 = 10000 ∧ backoff_next cfgTen 10000 = 20000 ∧
     backoff_next cfgTen 20000 = 40000 ∧
     backoff_next cfgTen 160000 = 300000 ∧
     backoff_next cfgTen 300000 = 300000) ∧
    (∀ scfg st r, scfg.enable = true → st.retry_timer = none →
        st.synced = false →
        (10 : ℤ) ∣ backoff_next scfg st.retry_timeout_ms →
        0 ≤ backoff_next scfg st.retry_timeout_ms →
        ((9 * backoff_next scfg st.retry_timeout_ms : ℤ) : ℚ) / 10 ≤ r →
        r ≤ ((11 * backoff_next scfg st.retry_timeout_ms : ℤ) : ℚ) / 10 →
        (mgos_sntp_retry scfg st r).retry_timer = some (cTrunc r) ∧
        9 * backoff_next scfg st.retry_timeout_ms ≤ 10 * cTrunc r ∧
        10 * cTrunc r ≤ 11 * backoff_next scfg st.retry_timeout_ms) := by
  refine ⟨?_, ?_, ?_, ?_⟩
  · intro scfg st r he ht hs
    rw [(retry_timeout_of_unsynced scfg st r he ht hs).1]
    unfold backoff_next
    dsimp only
    split_ifs <;> omega
  · intro scfg x hle
    unfold backoff_next
    dsimp only
    split_ifs <;> omega
  · refine ⟨rfl, rfl, rfl, rfl, rfl⟩
  · intro scfg st r he ht hs hdvd h0 hlo hhi
    refine ⟨(retry_timeout_of_unsynced scfg st r he ht hs).2, ?_⟩
    exact cTrunc_jitter_bounds _ r hdvd h0 hlo hhi

/-- C3 witness: the amended theorem applied at the scenario configuration,
the initial state (old backoff 0) and a concrete draw `r = 10500`. -/
theorem C3_backoff_amended_witness :
    (mgos_sntp_retry cfgTen initState 10500).retry_timeout_ms =
      min (cfgTen.retry_max * 1000)
        (max (cfgTen.retry_min * 1000) (initState.retry_timeout_ms * 2)) ∧
    backoff_next cfgTen 0 =
      max (cfgTen.retry_min * 1000) (min (cfgTen.retry_max * 1000) (0 * 2)) ∧
    (mgos_sntp_retry cfgTen initState 10500).retry_timer =
      some (cTrunc 10500) ∧
    9 * backoff_next cfgTen initState.retry_timeout_ms ≤ 10 * cTrunc 10500 ∧
    10 * cTrunc 10500 ≤ 11 * backoff_next cfgTen initState.retry_timeout_ms := by
  obtain ⟨h1, h2, h3, h4⟩ := C3_backoff_amended
  have hj := h4 cfgTen initState 10500 rfl rfl rfl (by decide) (by decide)
      (by norm_num [backoff_next, cfgTen, initState])
      (by norm_num [backoff_next, cfgTen, initState])
  exact ⟨h1 cfgTen initState 10500 rfl rfl rfl, h2 cfgTen 0 (by decide),
         hj.1, hj.2.1, hj.2.2⟩

/-- C4: along any run of consecutive failure-path `mgos_sntp_retry` calls
(the backoff follows `backoff_next` starting from 0), with sane bounds
`0 ≤ retryMin*1000 ≤ retryMax*1000` the stored backoff is non-decreasing,
never exceeds `retryMax*1000`, and is at least `retryMin*1000` from the
first failure on; a reply (successful or not at `settimeofday`) resets it
to 0. -/
theorem C4_backoff_monotone (scfg : SysConfigSntp)
    (hmn : 0 ≤ scfg.retry_min * 1000)
    (hle : scfg.retry_min * 1000 ≤ scfg.retry_max * 1000) :
    (∀ st r, scfg.enable = true → st.retry_timer = none →
        st.synced = false →
        (mgos_sntp_retry scfg st r).retry_timeout_ms =
          backoff_next scfg st.retry_timeout_ms) ∧
    (∀ n, (backoff_next scfg)^[n] 0 ≤ (backoff_next scfg)^[n + 1] 0) ∧
    (∀ n, (backoff_next scfg)^[n + 1] 0 ≤ scfg.retry_max * 1000) ∧
    (∀ n, scfg.retry_min * 1000 ≤ (backoff_next scfg)^[n + 1] 0) ∧
    (∀ st sid m now sr,
        (mgos_sntp_ev_reply st sid m now sr).st.retry_timeout_ms = 0) := by
  refine ⟨?_, ?_, ?_, ?_, ?_⟩
  · intro st r he ht hs
    exact (retry_timeout_of_unsynced scfg st r he ht hs).1
  · intro n
    rw [Function.iterate_succ_apply']
    exact le_backoff_next scfg _ (backoff_iterate_bounds scfg hmn hle n).1
      (backoff_iterate_bounds scfg hmn hle n).2
  · intro n
    rw [Function.iterate_succ_apply']
    exact backoff_next_le_max scfg _ hle
  · intro n
    rw [Function.iterate_succ_apply']
    exact backoff_next_min_le scfg _ hle
  · intro st sid m now sr
    unfold mgos_sntp_ev_reply
    dsimp only
    split <;> rfl

/-- C4 witness: the scenario configuration satisfies the bound hypotheses,
and the theorem instantiates at it. -/
theorem C4_backoff_monotone_witness :
    (backoff_next cfgTen)^[0] 0 ≤ (backoff_next cfgTen)^[1] 0 ∧
    (backoff_next cfgTen)^[10] 0 ≤ cfgTen.retry_max * 1000 ∧
    cfgTen.retry_min * 1000 ≤ (backoff_next cfgTen)^[1] 0 ∧
    (mgos_sntp_ev_reply c1Pre 0 100 90 true).st.retry_timeout_ms = 0 := by
  have h := C4_backoff_monotone cfgTen (by decide) (by decide)
  exact ⟨h.2.1 0, h.2.2.1 9, h.2.2.2.1 0, h.2.2.2.2 c1Pre 0 100 90 true⟩

/-- C5: once `synced` is true, an arming `mgos_sntp_retry` leaves the
stored backoff untouched and arms the truncated draw from
`mgos_rand_range(update_interval*1000*0.9, update_interval*1000*1.1)`;
under the range contract the armed delay lies in `[0.9, 1.1]` times
`update_interval*1000`, independently of `retry_timeout_ms`. -/
theorem C5_steady_state_delay (scfg : SysConfigSntp) (st : SntpState)
    (r : ℚ) (he : scfg.enable = true) (ht : st.retry_timer = none)
    (hs : st.synced = true) :
    (mgos_sntp_retry scfg st r).retry_timeout_ms = st.retry_timeout_ms ∧
    (mgos_sntp_retry scfg st r).retry_timer = some (cTrunc r) ∧
    (0 ≤ scfg.update_interval →
      ((9 * (scfg.update_interval * 1000) : ℤ) : ℚ) / 10 ≤ r →
      r ≤ ((11 * (scfg.update_interval * 1000) : ℤ) : ℚ) / 10 →
      9 * (scfg.update_interval * 1000) ≤ 10 * cTrunc r ∧
      10 * cTrunc r ≤ 11 * (scfg.update_interval * 1000)) := by
  rw [retry_of_synced scfg st r he ht hs]
  refine ⟨rfl, rfl, ?_⟩
  intro hu hlo hhi
  exact cTrunc_jitter_bounds (scfg.update_interval * 1000) r
    ⟨scfg.update_interval * 100, by ring⟩ (by positivity) hlo hhi

/-- C5 witness: a synced state with leftover backoff 4096, configuration
`update_interval = 7200 s`, and draw `r = 7200000`. -/
theorem C5_steady_state_delay_witness :
    (mgos_sntp_retry cfgTen
        { initState with synced := true, retry_timeout_ms := 4096 }
        7200000).retry_timeout_ms = 4096 ∧
    (mgos_sntp_retry cfgTen
        { initState with synced := true, retry_timeout_ms := 4096 }
        7200000).retry_timer = some (cTrunc 7200000) ∧
    9 * (cfgTen.update_interval * 1000) ≤ 10 * cTrunc 7200000 ∧
    10 * cTrunc 7200000 ≤ 11 * (cfgTen.update_interval * 1000) := by
  have h := C5_steady_state_delay cfgTen
      { initState with synced := true, retry_timeout_ms := 4096 }
      7200000 rfl rfl rfl
  have hj := h.2.2 (by decide) (by norm_num [cfgTen]) (by norm_num [cfgTen])
  exact ⟨h.1, h.2.1, hj.1, hj.2⟩

/-- C6: `mgos_sntp_query` with a tracked connection only sets the
close-immediately flag on it and returns `false` without creating a new
session; consequently, along every reachable interleaving of link-up
events, timer fires and session events, at most one connection is live at
any instant. -/
theorem C6_single_active_session (scfg : SysConfigSntp) :
    (∀ st sid connectOk, st.nc = some sid →
        mgos_sntp_query st connectOk =
          (false, { st with closeReq := sid :: st.closeReq })) ∧
    (∀ st, Reachable scfg st → st.live.length ≤ 1) := by
  constructor
  · intro st sid connectOk hnc
    unfold mgos_sntp_query
    rw [hnc]
  · intro st h
    have hinv := sessionInv_reachable scfg st h
    unfold SessionInv at hinv
    rw [hinv]
    cases st.nc <;> simp

/-- C6 witness: the query guard at a state tracking connection 5, and the
invariant at the initial state. -/
theorem C6_single_active_session_witness :
    mgos_sntp_query { initState with nc := some 5 } true =
      (false, { initState with nc := some 5, closeReq := [5] }) ∧
    initState.live.length ≤ 1 := by
  refine ⟨(C6_single_active_session cfgTen).1 _ 5 true rfl, ?_⟩
  exact (C6_single_active_session cfgTen).2 initState Reachable.base

/-- C7: a close event for the tracked connection clears the handle and
makes exactly one `mgos_sntp_retry` call (the post-state is literally one
`mgos_sntp_retry` applied to the cleared state); `mgos_sntp_retry` is a
no-op whenever a timer is already armed, so such a close leaves an
already-armed timer untouched and arms at most one new timer. -/
theorem C7_close_reschedules_once (scfg : SysConfigSntp) :
    (∀ st r, st.retry_timer.isSome → mgos_sntp_retry scfg st r = st) ∧
    (∀ st sid r, st.nc = some sid →
        mgos_sntp_ev_close scfg st sid r =
          mgos_sntp_retry scfg
            { st with nc := none, live := st.live.erase sid } r) ∧
    (∀ st sid r, st.nc = some sid →
        (mgos_sntp_ev_close scfg st sid r).nc = none) ∧
    (∀ st sid r t, st.nc = some sid → st.retry_timer = some t →
        (mgos_sntp_ev_close scfg st sid r).retry_timer = some t) := by
  have hclose : ∀ st sid r, st.nc = some sid →
      mgos_sntp_ev_close scfg st sid r =
        mgos_sntp_retry scfg
          { st with nc := none, live := st.live.erase sid } r := by
    intro st sid r hnc
    unfold mgos_sntp_ev_close
    dsimp only
    rw [if_pos (by simpa using hnc)]
  refine ⟨fun st r h => retry_noop_of_armed scfg st r h, hclose, ?_, ?_⟩
  · intro st sid r hnc
    rw [hclose st sid r hnc]
    exact (retry_frame scfg _ r).1
  · intro st sid r t hnc ht
    rw [hclose st sid r hnc,
        retry_noop_of_armed scfg _ r (by simp [ht])]
    exact ht

/-- C7 witness: a state tracking connection 0 with a timer already armed
at delay 50: the close event clears the handle and keeps the timer. -/
theorem C7_close_reschedules_once_witness :
    mgos_sntp_retry cfgTen
        { initState with nc := some 0, live := [0], retry_timer := some 50 }
        3 =
      { initState with nc := some 0, live := [0], retry_timer := some 50 } ∧
    (mgos_sntp_ev_close cfgTen
        { initState with nc := some 0, live := [0], retry_timer := some 50 }
        0 3).nc = none ∧
    (mgos_sntp_ev_close cfgTen
        { initState with nc := some 0, live := [0], retry_timer := some 50 }
        0 3).retry_timer = some 50 := by
  have h := C7_close_reschedules_once cfgTen
  exact ⟨h.1 _ 3 rfl, h.2.2.1 _ 0 3 rfl, h.2.2.2 _ 0 3 50 rfl rfl⟩

/-- The configuration of the C8 counterexample: SNTP enabled with an
empty (but non-NULL) server string. -/
def cfgEmptyServer : SysConfigSntp :=
  { enable := true, server := some "", update_interval := 7200,
    retry_min := 1, retry_max := 30 }

/-- C8: the claim that an enabled configuration with an *empty* server
address yields the configuration-error result is false: line 162 tests
`scfg->server == NULL` only, so an empty string passes the check and
`mgos_sntp_init` returns `MGOS_INIT_OK`. -/
theorem C8_empty_server_counterexample :
    (mgos_sntp_init cfgEmptyServer initState).1 =
      MgosInitResult.MGOS_INIT_OK ∧
    MgosInitResult.MGOS_INIT_OK ≠
      MgosInitResult.MGOS_INIT_SNTP_INIT_FAILED := by
  exact ⟨rfl, by decide⟩

/-- C8 (amended): `mgos_sntp_init` returns `MGOS_INIT_OK` when the feature
is disabled and `MGOS_INIT_SNTP_INIT_FAILED` exactly when it is enabled
and the server address is absent (NULL); a present-but-empty address is
accepted.  In the error case the state is returned unchanged, so no timer
is armed and no session is started. -/
theorem C8_init_result_amended (scfg : SysConfigSntp) (st : SntpState) :
    (scfg.enable = false →
        mgos_sntp_init scfg st = (MgosInitResult.MGOS_INIT_OK, st)) ∧
    (scfg.enable = true → scfg.server = none →
        mgos_sntp_init scfg st =
          (MgosInitResult.MGOS_INIT_SNTP_INIT_FAILED, st) ∧
        (mgos_sntp_init scfg st).2.retry_timer = st.retry_timer ∧
        (mgos_sntp_init scfg st).2.nc = st.nc ∧
        (mgos_sntp_init scfg st).2.live = st.live) := by
  constructor
  · intro hdis
    unfold mgos_sntp_init
    rw [if_pos hdis]
  · intro hen hsv
    have heq : mgos_sntp_init scfg st =
        (MgosInitResult.MGOS_INIT_SNTP_INIT_FAILED, st) := by
      unfold mgos_sntp_init
      rw [if_neg (by simp [hen]), hsv]
    exact ⟨heq, by rw [heq], by rw [heq], by rw [heq]⟩

/-- C8 witness: a disabled configuration returns OK, and an enabled
configuration with a NULL server returns the error code with the state
unchanged. -/
theorem C8_init_result_amended_witness :
    mgos_sntp_init { cfgTen with enable := false } initState =
      (MgosInitResult.MGOS_INIT_OK, initState) ∧
    mgos_sntp_init { cfgTen with server := none } initState =
      (MgosInitResult.MGOS_INIT_SNTP_INIT_FAILED, initState) ∧
    (mgos_sntp_init { cfgTen with server := none } initState).2.retry_timer =
      initState.retry_timer := by
  have h1 := (C8_init_result_amended { cfgTen with enable := false }
      initState).1 rfl
  have h2 := (C8_init_result_amended { cfgTen with server := none }
      initState).2 rfl rfl
  exact ⟨h1, h2.1, h2.2.1⟩

/-- C9: with the feature disabled, `mgos_sntp_retry` returns without
modifying anything — in particular `mgos_sntp_net_ev` (the link-up
handler) is inert — and consequently no reachable state has an armed
timer, a tracked handle or a live session. -/
theorem C9_disabled_inert (scfg : SysConfigSntp)
    (hdis : scfg.enable = false) :
    (∀ st r, mgos_sntp_retry scfg st r = st) ∧
    (∀ st ev r, mgos_sntp_net_ev scfg st ev r = st) ∧
    (∀ st, Reachable scfg st →
        st.retry_timer = none ∧ st.nc = none ∧ st.live = []) := by
  refine ⟨fun st r => retry_noop_of_disabled scfg st r hdis, ?_, ?_⟩
  · intro st ev r
    unfold mgos_sntp_net_ev
    split
    · rfl
    · exact retry_noop_of_disabled scfg st r hdis
  · exact disabled_inert_reachable scfg hdis

/-- C9 witness: the disabled configuration at the initial state and a
link-up event. -/
theorem C9_disabled_inert_witness :
    mgos_sntp_retry { cfgTen with enable := false } c1Pre 42 = c1Pre ∧
    mgos_sntp_net_ev { cfgTen with enable := false } c1Pre
      MgosNetEvent.MGOS_NET_EV_IP_ACQUIRED 42 = c1Pre ∧
    initState.retry_timer = none ∧ initState.nc = none ∧
    initState.live = [] := by
  have h := C9_disabled_inert { cfgTen with enable := false } rfl
  exact ⟨h.1 c1Pre 42, h.2.1 c1Pre _ 42, h.2.2 initState Reachable.base⟩

/-- C10: `mgos_time_change_cb` preserves the connection list's length; a
connection whose `ev_timer_time` is strictly positive gets exactly `delta`
added to it, one whose `ev_timer_time` is `≤ 0` is returned unchanged, and
the remaining fields (`flags`, `sock`) of every connection are untouched
either way. -/
theorem C10_time_change_frame (conns : List MgConnection) (delta : ℚ)
    (i : ℕ) :
    (mgos_time_change_cb conns delta).length = conns.length ∧
    (∀ nc, conns.get? i = some nc →
      (0 < nc.ev_timer_time →
        (mgos_time_change_cb conns delta).get? i =
          some { nc with ev_timer_time := nc.ev_timer_time + delta }) ∧
      (nc.ev_timer_time ≤ 0 →
        (mgos_time_change_cb conns delta).get? i = some nc) ∧
      (∀ nc', (mgos_time_change_cb conns delta).get? i = some nc' →
        nc'.flags = nc.flags ∧ nc'.sock = nc.sock)) := by
  constructor
  · unfold mgos_time_change_cb
    exact List.length_map _ _
  · intro nc hget
    have hmap : (mgos_time_change_cb conns delta).get? i =
        some (if nc.ev_timer_time > 0
              then { nc with ev_timer_time := nc.ev_timer_time + delta }
              else nc) := by
      have hget2 : conns[i]? = some nc := by
        rw [← List.get?_eq_getElem?]
        exact hget
      unfold mgos_time_change_cb
      rw [List.get?_eq_getElem?, List.getElem?_map, hget2, Option.map_some']
    refine ⟨?_, ?_, ?_⟩
    · intro hpos
      rw [hmap, if_pos hpos]
    · intro hnp
      rw [hmap, if_neg (not_lt.mpr hnp)]
    · intro nc' h'
      rw [hmap] at h'
      have h2 := Option.some.inj h'
      rw [← h2]
      split <;> exact ⟨rfl, rfl⟩

/-- C10 witness: a two-connection list, one with a pending deadline at 10
and one with deadline -3, shifted by delta = 2. -/
theorem C10_time_change_frame_witness :
    (mgos_time_change_cb [⟨10, 7, 2⟩, ⟨-3, 4, 5⟩] 2).length = 2 ∧
    (mgos_time_change_cb [⟨10, 7, 2⟩, ⟨-3, 4, 5⟩] 2).get? 0 =
      some ⟨10 + 2, 7, 2⟩ ∧
    (mgos_time_change_cb [⟨10, 7, 2⟩, ⟨-3, 4, 5⟩] 2).get? 1 =
      some ⟨-3, 4, 5⟩ := by
  have h0 := C10_time_change_frame [⟨10, 7, 2⟩, ⟨-3, 4, 5⟩] 2 0
  have h1 := C10_time_change_frame [⟨10, 7, 2⟩, ⟨-3, 4, 5⟩] 2 1
  refine ⟨h0.1, ?_, ?_⟩
  · exact (h0.2 ⟨10, 7, 2⟩ rfl).1 (by norm_num)
  · exact (h1.2 ⟨-3, 4, 5⟩ rfl).2.1 (by norm_num)

end MgosSntp
